import Mathlib

/-!
Shallow embedding of the Critical Analysis engine and Difficulty Assessor of
the research-assistant repository (src/src/ml/critic.py and
src/src/ml/analyzer.py), together with proofs settling the frozen claims.

Texts are Lean `String`s; Python string indices become indices into
`String.data : List Char`.  Python's `re` patterns are embedded as a small
regular-expression AST (`RE`) with a backtracking matcher whose enumeration
order mirrors Python's leftmost, greedy, first-alternative-first semantics on
the constructs the source patterns use (literals, classes, `+`, `*`, `?`,
alternation, negative lookahead).  Character classes are ASCII, matching the
inputs the source is exercised on.
-/

set_option maxRecDepth 4000

/-- Regular-expression AST covering the constructs used by the source's
patterns: empty, single-character class, concatenation, alternation, greedy
Kleene star and negative lookahead `(?!...)`. -/
inductive RE where
  | eps : RE
  | cls : (Char → Bool) → RE
  | seq : RE → RE → RE
  | alt : RE → RE → RE
  | star : RE → RE
  | nla : RE → RE

/-- Greedy iteration of a star: all end positions reachable by repeating
`step` (longest continuations listed first, as a backtracking engine tries
them), with the empty repetition last.  Each repetition must consume at least
one character; `fuel` bounds the number of repetitions and is always called
with at least `length + 1`, which strictly increasing positions can never
exhaust. -/
def starIter (step : Nat → List Nat) : Nat → Nat → List Nat
  | 0, i => [i]
  | f + 1, i =>
    (((step i).filter (fun j => i < j)).flatMap (starIter step f)) ++ [i]

/-- End positions of a match of `r` starting at position `i` of `s`, in the
order a backtracking engine (Python `re`) tries them: for `alt` the left
alternative first, for `star` the longest repetition first.  The head of the
list is the end position Python's engine reports. -/
def reEnds (s : List Char) : RE → Nat → List Nat
  | .eps, i => [i]
  | .cls p, i =>
    if h : i < s.length then (if p (s.get ⟨i, h⟩) then [i + 1] else []) else []
  | .seq a b, i => (reEnds s a i).flatMap (reEnds s b)
  | .alt a b, i => reEnds s a i ++ reEnds s b i
  | .star a, i => starIter (reEnds s a) (s.length + 1) i
  | .nla a, i => if (reEnds s a i).isEmpty then [i] else []

/-- Truthiness of Python `re.search(pattern, s)`: some start position in
`0..len(s)` begins a match. -/
def reSearch (r : RE) (s : List Char) : Bool :=
  (List.range (s.length + 1)).any (fun i => !(reEnds s r i).isEmpty)

/-- First match of `r` in `s` starting at or after `pos`: the leftmost start
position with a match, paired with the end position the engine reports
(head of `reEnds`).  Mirrors Python's scan loop inside `finditer`. -/
def reFindFrom (r : RE) (s : List Char) (pos : Nat) : Option (Nat × Nat) :=
  (List.range (s.length + 1)).findSome? (fun i =>
    if i < pos then none
    else match reEnds s r i with
      | [] => none
      | e :: _ => some (i, e))

/-- Worker for `reFinditer`: collect non-overlapping matches left to right,
continuing after each match's end (or one past its start for an empty match,
as Python does).  `fuel = length + 1` suffices since the scan position
strictly increases. -/
def reFinditerGo (r : RE) (s : List Char) : Nat → Nat → List (Nat × Nat)
  | 0, _ => []
  | f + 1, pos =>
    match reFindFrom r s pos with
    | none => []
    | some m => m :: reFinditerGo r s f (if m.1 < m.2 then m.2 else m.1 + 1)

/-- Python `re.finditer(pattern, s)`: the list of (start, end) spans of the
non-overlapping matches, leftmost first. -/
def reFinditer (r : RE) (s : List Char) : List (Nat × Nat) :=
  reFinditerGo r s (s.length + 1) 0

/-- Case-sensitive single character. -/
def chrRE (c : Char) : RE := RE.cls (fun x => x == c)

/-- Case-insensitive single character (`re.IGNORECASE`); the pattern
character is given in lowercase. -/
def chriRE (c : Char) : RE := RE.cls (fun x => x.toLower == c)

/-- Concatenation of a list of regexes. -/
def seqsRE (l : List RE) : RE := l.foldr RE.seq RE.eps

/-- Alternation of a list of regexes, leftmost alternative preferred; the
empty list never matches. -/
def altsRE : List RE → RE
  | [] => RE.nla RE.eps
  | r :: rs => rs.foldl RE.alt r

/-- Case-insensitive literal string. -/
def striRE (t : String) : RE := seqsRE (t.data.map chriRE)

/-- `+` (one or more, greedy). -/
def plusRE (r : RE) : RE := RE.seq r (RE.star r)

/-- `?` (optional, greedy: presence tried first). -/
def optRE (r : RE) : RE := RE.alt r RE.eps

/-- `\s` (whitespace class). -/
def wsRE : RE := RE.cls Char.isWhitespace

/-- `\w` (word-character class, ASCII). -/
def wdRE : RE := RE.cls (fun c => c.isAlphanum || c == '_')

/-- `\d` (digit class). -/
def dgRE : RE := RE.cls Char.isDigit

/-- `.` (any character except a newline, Python's default). -/
def dotRE : RE := RE.cls (fun c => !(c == '\n'))

/-- Does `pat` head `s`?  (Prefix test used by substring scanning.) -/
def leadsWith : List Char → List Char → Bool
  | [], _ => true
  | _ :: _, [] => false
  | p :: ps, c :: cs => p == c && leadsWith ps cs

/-- Worker for `countSub`, fuelled by the length of the scanned list: on a
match, skip the matched occurrence (non-overlapping, as Python `str.count`);
otherwise advance one character. -/
def countSubGo (pat : List Char) : Nat → List Char → Nat
  | 0, _ => 0
  | _, [] => 0
  | f + 1, c :: rest =>
    if leadsWith pat (c :: rest) then
      1 + countSubGo pat f (rest.drop (pat.length - 1))
    else countSubGo pat f rest

/-- Python `s.count(pat)` for a non-empty `pat`: the number of
non-overlapping occurrences, scanning left to right. -/
def countSub (s pat : List Char) : Nat := countSubGo pat s.length s

/-- Python `pat in s`: `pat` occurs as a contiguous substring of `s`. -/
def containsSub (s pat : List Char) : Bool :=
  (List.range (s.length + 1)).any (fun i => leadsWith pat (s.drop i))

/-- Split a character list at every character satisfying `p`, keeping empty
pieces (the behaviour of Python `str.split(sep)` for a one-character `sep`,
with `p` testing equality with that separator). -/
def splitChGo (p : Char → Bool) (cur : List Char) : List Char → List (List Char)
  | [] => [cur.reverse]
  | c :: rest =>
    if p c then cur.reverse :: splitChGo p [] rest
    else splitChGo p (c :: cur) rest

/-- Python `text.split('.')` as lists of characters. -/
def splitDot (s : List Char) : List (List Char) :=
  splitChGo (fun c => c == '.') [] s

/-- Python `text.split('.')`, producing strings. -/
def pySplitDot (text : String) : List String :=
  (splitDot text.data).map (fun l => ⟨l⟩)

/-- Python `text.split()`: split on whitespace, dropping empty pieces. -/
def pyWords (text : String) : List String :=
  ((splitChGo (fun c => c.isWhitespace) [] text.data).filter
    (fun w => w ≠ [])).map (fun l => ⟨l⟩)

/-- Python `s.strip()` on character lists: drop leading and trailing
whitespace. -/
def trimChars (s : List Char) : List Char :=
  ((s.dropWhile Char.isWhitespace).reverse.dropWhile Char.isWhitespace).reverse

/-- Python `s.strip()`. -/
def pyStrip (s : String) : String := ⟨trimChars s.data⟩

/-- Python `s.lower()` (ASCII case folding, which covers the source's
inputs). -/
def pyLower (s : String) : String := ⟨s.data.map Char.toLower⟩

example : pyWords " a  bc " = ["a", "bc"] := by decide
example : pySplitDot "a.b." = ["a", "b", ""] := by decide
example : pySplitDot "" = [""] := by decide
example : pyStrip "  hi t " = "hi t" := by decide
example : pyLower "AbC." = "abc." := by decide

/-! ## Difficulty Assessor (src/src/ml/analyzer.py, `DocumentAnalyzer`) -/

/-- `DIFFICULTY_INDICATORS["beginner"]`. -/
def beginnerIndicators : List String :=
  ["simple", "basic", "introduction", "beginner", "overview", "fundamentals"]

/-- `DIFFICULTY_INDICATORS["intermediate"]`. -/
def intermediateIndicators : List String :=
  ["analysis", "explores", "examines", "discusses", "considers"]

/-- `DIFFICULTY_INDICATORS["advanced"]`. -/
def advancedIndicators : List String :=
  ["comprehensive", "complex", "sophisticated", "advanced", "technical",
   "in-depth", "theoretical", "methodology", "paradigm"]

/-- `DIFFICULTY_INDICATORS`, in declared order. -/
def DIFFICULTY_INDICATORS : List (String × List String) :=
  [("beginner", beginnerIndicators), ("intermediate", intermediateIndicators),
   ("advanced", advancedIndicators)]

/-- Indicator tally of one level: `scores[level] += text_lower.count(indicator)`
summed over the level's indicators. -/
def indicatorScore (textLower : String) (indicators : List String) : Nat :=
  indicators.foldl (fun a ind => a + countSub textLower.data ind.data) 0

/-- The three indicator tallies (beginner, intermediate, advanced) before the
complexity bonus. -/
def baseScores (text : String) : Nat × Nat × Nat :=
  let tl := pyLower text
  (indicatorScore tl beginnerIndicators,
   indicatorScore tl intermediateIndicators,
   indicatorScore tl advancedIndicators)

/-- Summed length of the whitespace-split words of the text. -/
def totalWordLen (text : String) : Nat :=
  ((pyWords text).map String.length).sum

/-- Number of whitespace-split words. -/
def numWords (text : String) : Nat := (pyWords text).length

/-- Number of `'.'`-split sentences (always at least 1). -/
def numSentences (text : String) : Nat := (pySplitDot text).length

/-- `avg_word_length > 6 or avg_sentence_length > 25`, written as the exact
rational comparisons (the guard for zero words is folded in, since with no
words both totals are 0 and `0 > 0` is false; the sentence list is never
empty). -/
def complexityCond1 (text : String) : Prop :=
  6 * numWords text < totalWordLen text ∨
  25 * numSentences text < numWords text

/-- `avg_word_length > 5 or avg_sentence_length > 15`, written as the exact
rational comparisons. -/
def complexityCond2 (text : String) : Prop :=
  5 * numWords text < totalWordLen text ∨
  15 * numSentences text < numWords text

instance (text : String) : Decidable (complexityCond1 text) := by
  unfold complexityCond1; infer_instance

instance (text : String) : Decidable (complexityCond2 text) := by
  unfold complexityCond2; infer_instance

/-- The tallies after the single complexity bonus (`+3` advanced, else `+2`
intermediate, else `+2` beginner). -/
def finalScores (text : String) : Nat × Nat × Nat :=
  let (b, i, a) := baseScores text
  if complexityCond1 text then (b, i, a + 3)
  else if complexityCond2 text then (b, i + 2, a)
  else (b + 2, i, a)

/-- Python `max(scores, key=scores.get)` over the dict with insertion order
beginner, intermediate, advanced: fold keeping the current best, replacing it
only on a strictly greater value, and return the winning key. -/
def pickMax (b i a : Nat) : String :=
  (([("intermediate", i), ("advanced", a)]).foldl
    (fun best kv => if kv.2 > best.2 then kv else best) ("beginner", b)).1

/-- `DocumentAnalyzer.assess_difficulty`. -/
def assessDifficulty (text : String) : String :=
  let (b, i, a) := finalScores text
  pickMax b i a

example : assessDifficulty "" = "beginner" := by decide
example : assessDifficulty "Short." = "intermediate" := by decide
example : pickMax 2 2 2 = "beginner" := by decide
example : pickMax 1 2 2 = "intermediate" := by decide

/-! ## Critical Analyzer pattern library (src/src/ml/critic.py) -/

/-- `r'will\s+(?:definitely|certainly|surely)\s+\w+'`. -/
def patWillDefinitely : RE :=
  seqsRE [striRE "will", plusRE wsRE,
    altsRE [striRE "definitely", striRE "certainly", striRE "surely"],
    plusRE wsRE, plusRE wdRE]

/-- `r'(?:always|never|all|every|none)\s+\w+'`. -/
def patAbsolutes : RE :=
  seqsRE [altsRE [striRE "always", striRE "never", striRE "all",
    striRE "every", striRE "none"], plusRE wsRE, plusRE wdRE]

/-- `r'studies show(?!\s+\()'`. -/
def patStudiesShow : RE :=
  seqsRE [striRE "studies show", RE.nla (seqsRE [plusRE wsRE, chriRE '('])]

/-- `r'experts? (?:say|believe|think)(?!\s+\()'`. -/
def patExpertsSay : RE :=
  seqsRE [striRE "expert", optRE (chriRE 's'), chriRE ' ',
    altsRE [striRE "say", striRE "believe", striRE "think"],
    RE.nla (seqsRE [plusRE wsRE, chriRE '('])]

/-- `r'it is (?:proven|obvious|clear) that'`. -/
def patItIsProven : RE :=
  seqsRE [striRE "it is ",
    altsRE [striRE "proven", striRE "obvious", striRE "clear"],
    striRE " that"]

/-- `r'\d+%(?!\s+\()'`. -/
def patPercent : RE :=
  seqsRE [plusRE dgRE, chriRE '%', RE.nla (seqsRE [plusRE wsRE, chriRE '('])]

/-- `r'everyone knows that'`. -/
def patEveryoneKnows : RE := striRE "everyone knows that"

/-- `r'clearly\s+\w+'`. -/
def patClearly : RE := seqsRE [striRE "clearly", plusRE wsRE, plusRE wdRE]

/-- `r'without (?:a )?doubt'`. -/
def patWithoutDoubt : RE :=
  seqsRE [striRE "without ", optRE (striRE "a "), striRE "doubt"]

/-- `CLAIM_PATTERNS`, in declared order. -/
def CLAIM_PATTERNS : List RE :=
  [patWillDefinitely, patAbsolutes, patStudiesShow, patExpertsSay,
   patItIsProven, patPercent, patEveryoneKnows, patClearly, patWithoutDoubt]

/-- `r'(?:famous|renowned|expert)\s+\w+\s+(?:says|believes)'`. -/
def patAppeal : RE :=
  seqsRE [altsRE [striRE "famous", striRE "renowned", striRE "expert"],
    plusRE wsRE, plusRE wdRE, plusRE wsRE,
    altsRE [striRE "says", striRE "believes"]]

/-- `r'(?:either|only two)\s+(?:options?|choices?|ways?)'`. -/
def patDichotomy : RE :=
  seqsRE [altsRE [striRE "either", striRE "only two"], plusRE wsRE,
    altsRE [seqsRE [striRE "option", optRE (chriRE 's')],
      seqsRE [striRE "choice", optRE (chriRE 's')],
      seqsRE [striRE "way", optRE (chriRE 's')]]]

/-- `r'if\s+\w+.*then\s+\w+.*and\s+then'`. -/
def patSlope : RE :=
  seqsRE [striRE "if", plusRE wsRE, plusRE wdRE, RE.star dotRE,
    striRE "then", plusRE wsRE, plusRE wdRE, RE.star dotRE,
    striRE "and", plusRE wsRE, striRE "then"]

/-- `r'because\s+\w+.*therefore'`. -/
def patCausation : RE :=
  seqsRE [striRE "because", plusRE wsRE, plusRE wdRE, RE.star dotRE,
    striRE "therefore"]

/-- `r'(?:all|every|always)\s+\w+\s+(?:are|do|have)'`. -/
def patHasty : RE :=
  seqsRE [altsRE [striRE "all", striRE "every", striRE "always"],
    plusRE wsRE, plusRE wdRE, plusRE wsRE,
    altsRE [striRE "are", striRE "do", striRE "have"]]

/-- `FALLACY_PATTERNS`, in declared (insertion) order. -/
def FALLACY_PATTERNS : List (String × RE) :=
  [("Appeal to Authority", patAppeal), ("False Dichotomy", patDichotomy),
   ("Slippery Slope", patSlope), ("Correlation vs Causation", patCausation),
   ("Hasty Generalization", patHasty)]

/-- `r'\(\d{4}\)'`: a four-digit year in parentheses (case-sensitive, as the
source searches it without flags). -/
def patYearCite : RE :=
  seqsRE [chrRE '(', dgRE, dgRE, dgRE, dgRE, chrRE ')']

/-- `r'\[\d+\]'`: a bracketed reference number. -/
def patBracketCite : RE := seqsRE [chrRE '[', plusRE dgRE, chrRE ']']

/-- `r'\(\d{4}\)|\[\d+\]'`, the citation test of `identify_logical_gaps`. -/
def citeSearchPat : RE := RE.alt patYearCite patBracketCite

/-- `r'et al\.'` (case-sensitive literal). -/
def patEtAl : RE :=
  seqsRE [chrRE 'e', chrRE 't', chrRE ' ', chrRE 'a', chrRE 'l', chrRE '.']

/-- `r'\(\d{4}\)|\[\d+\]|et al\.'`, counted by `generate_critical_summary`. -/
def citeCountPat : RE := altsRE [patYearCite, patBracketCite, patEtAl]

/-- `r'many|some|few|several'` (searched with `re.IGNORECASE`). -/
def vaguePat : RE :=
  altsRE [striRE "many", striRE "some", striRE "few", striRE "several"]

example : reSearch patWillDefinitely "he WILL definitely win".data = true := by decide
example : reSearch patExpertsSay "Experts say so".data = true := by decide
example : reSearch patExpertsSay "experts say (2021)".data = false := by decide
example : reSearch citeSearchPat "as in (2020) noted".data = true := by decide
example : reSearch citeSearchPat "as in (202) noted".data = false := by decide
example : reFinditer patDichotomy "either ways ".data = [(0, 11)] := by decide

/-! ## Claim Detector (`CriticalAnalyzer.identify_unsupported_claims`) -/

/-- Truncation applied to a recorded claim sentence: the first 150 characters
with `...` appended when the sentence is longer than 150 characters. -/
def truncClaim (s : String) : String :=
  if 150 < s.length then (⟨s.data.take 150⟩ : String) ++ "..." else s

/-- Per-sentence behaviour of the claim-detection loop: strip the sentence,
skip it when shorter than 20 characters, otherwise record its truncation when
some claim pattern matches (the inner loop breaks at the first matching
pattern, so the sentence contributes at most one claim). -/
def claimOf (sentence : String) : Option String :=
  if (pyStrip sentence).length < 20 then none
  else if CLAIM_PATTERNS.any (fun p => reSearch p (pyStrip sentence).data) then
    some (truncClaim (pyStrip sentence))
  else none

/-- `CriticalAnalyzer.identify_unsupported_claims`: fold over the `'.'`-split
sentences, appending at most one claim per sentence (`Option.toList` is the
empty or singleton block the iteration appends), then keep the first 5. -/
def identifyUnsupportedClaims (text : String) : List String :=
  ((pySplitDot text).foldl
    (fun acc sen => acc ++ (claimOf sen).toList) []).take 5

example :
    identifyUnsupportedClaims "Experts say this will definitely work. " =
      ["Experts say this will definitely work"] := by decide

/-! ## Fallacy/Gap Detector (`CriticalAnalyzer.identify_logical_gaps`) -/

/-- Fixed structural finding for research mentioned without citations. -/
def sNoCitations : String := "Research mentioned but no citations provided"

/-- Fixed structural finding for vague quantifiers. -/
def sVague : String := "Vague quantifiers used without specific data"

/-- Context window of a fallacy match: `text[max(0, start-50) : min(len, end+100)]`
(Nat subtraction performs the clamp at 0), stripped of surrounding whitespace
as the source does. -/
def mkContext (text : String) (st en : Nat) : String :=
  ⟨trimChars ((text.data.drop (st - 50)).take
    (min text.data.length (en + 100) - (st - 50)))⟩

/-- Context window exactly as the spec words it: the clipped slice, with no
stripping.  Used only to state the claim as written. -/
def mkContextRaw (text : String) (st en : Nat) : String :=
  ⟨(text.data.drop (st - 50)).take
    (min text.data.length (en + 100) - (st - 50))⟩

/-- `f"Possible {fallacy_name}: '{context}...'"`. -/
def mkFallacyFinding (nm ctx : String) : String :=
  "Possible " ++ nm ++ ": \x27" ++ ctx ++ "...\x27"

/-- The fallacy-scan part of `identify_logical_gaps`: for each named pattern
in declared order, the first two matches in the whole text, each formatted
with its stripped context window. -/
def fallacyFindings (text : String) : List String :=
  FALLACY_PATTERNS.foldl
    (fun acc np =>
      acc ++ ((reFinditer np.2 text.data).take 2).map
        (fun m => mkFallacyFinding np.1 (mkContext text m.1 m.2))) []

/-- The two structural checks of `identify_logical_gaps`, in fixed order:
missing citations (text mentions research/study but matches no citation
pattern), then vague quantifiers. -/
def structuralFindings (text : String) : List String :=
  (if containsSub (pyLower text).data "research".data ∨
      containsSub (pyLower text).data "study".data then
    (if reSearch citeSearchPat text.data then [] else [sNoCitations])
  else []) ++
  (if reSearch vaguePat text.data then [sVague] else [])

/-- The `gaps` list of `identify_logical_gaps` before the final cap. -/
def gapsProduced (text : String) : List String :=
  fallacyFindings text ++ structuralFindings text

/-- `CriticalAnalyzer.identify_logical_gaps`: the produced findings, capped
at 5. -/
def identifyLogicalGaps (text : String) : List String :=
  (gapsProduced text).take 5

example :
    identifyLogicalGaps "either ways " =
      ["Possible False Dichotomy: \x27either ways...\x27"] := by decide
example :
    identifyLogicalGaps "Recent research offers insight" = [sNoCitations] := by
  decide

/-! ## Narrative Synthesizer (`CriticalAnalyzer.generate_critical_summary`) -/

/-- Python `' '.join(parts)`. -/
def joinSp : List String → String
  | [] => ""
  | [p] => p
  | p :: q :: rest => p ++ " " ++ joinSp (q :: rest)

/-- Opening sentence when some claim or gap was found. -/
def sScrutiny : String :=
  "This article presents several claims that warrant scrutiny."

/-- Opening sentence when nothing was found. -/
def sWellReasoned : String :=
  "This article appears well-reasoned with supported arguments."

/-- Sentence counting the unsupported claims. -/
def sClaimsCount (n : Nat) : String :=
  "There are " ++ toString n ++ " potentially unsupported claims " ++
    "that would benefit from additional evidence or citations."

/-- Sentence counting the logical gaps. -/
def sGapsCount (n : Nat) : String :=
  "The analysis identified " ++ toString n ++ " potential logical issues " ++
    "or areas requiring more rigorous argumentation."

/-- Sentence emitted when the text lacks counterargument markers. -/
def sBalance : String :=
  "The article may lack counterarguments or alternative perspectives."

/-- Sentence emitted when no citation-like occurrence was counted. -/
def sNoCiteDetected : String :=
  "No academic citations were detected in the text."

/-- Sentence emitted when fewer than 3 citation-like occurrences were
counted. -/
def sLimitedCites : String := "The article contains limited citations."

/-- `len(re.findall(r'\(\d{4}\)|\[\d+\]|et al\.', text))`: the number of
non-overlapping citation-like matches in the whole text. -/
def citationCount (text : String) : Nat :=
  (reFinditer citeCountPat text.data).length

/-- The `parts` list of `generate_critical_summary`, appended in source
order: overall assessment, claim count (when any), gap count (when any),
balance check, citation-count sentence (none when the count is 3 or more). -/
def summaryParts (text : String) (uc lg : List String) : List String :=
  (if uc ≠ [] ∨ lg ≠ [] then [sScrutiny] else [sWellReasoned]) ++
  (if uc ≠ [] then [sClaimsCount uc.length] else []) ++
  (if lg ≠ [] then [sGapsCount lg.length] else []) ++
  (if ¬ (containsSub (pyLower text).data "however".data = true) ∧
      ¬ (containsSub (pyLower text).data "although".data = true) then
    [sBalance] else []) ++
  (if citationCount text = 0 then [sNoCiteDetected]
   else if citationCount text < 3 then [sLimitedCites] else [])

/-- `CriticalAnalyzer.generate_critical_summary`. -/
def generateCriticalSummary (text : String) (uc lg : List String) : String :=
  joinSp (summaryParts text uc lg)

/-! ## Follow-up questions (`CriticalAnalyzer.generate_follow_up_questions`) -/

/-- The four fixed generic critical-thinking questions, in order. -/
def genericQuestions : List String :=
  ["What counterarguments or alternative viewpoints exist?",
   "What are the practical implications of implementing these ideas?",
   "What might critics of this perspective say?",
   "What further research would strengthen these conclusions?"]

/-- `CriticalAnalyzer.generate_follow_up_questions`: a claim-based question
from the first stripped sentence longer than 30 characters (when one
exists), up to two topic-based questions, then the generic questions;
truncated to 5. -/
def generateFollowUpQuestions (text : String) (topics : List String) :
    List String :=
  let sentences :=
    ((pySplitDot text).map pyStrip).filter (fun s => 30 < s.length)
  ((match sentences with
    | [] => []
    | m :: _ =>
      ["What evidence supports the assertion that " ++ pyLower m ++ "?"]) ++
   (match topics with
    | [] => []
    | t0 :: rest =>
      ["How does this relate to broader issues in " ++ pyLower t0 ++ "?"] ++
      (match rest with
       | [] => []
       | t1 :: _ =>
         ["What is the connection between " ++ t0 ++ " and " ++ t1 ++
           " in this context?"])) ++
   genericQuestions).take 5

/-! ## Related topics (`CriticalAnalyzer.suggest_related_topics`) -/

/-- The `topic_map` of domain-specific relationships. -/
def topicMap : List (String × List String) :=
  [("Technology", ["Artificial Intelligence", "Cybersecurity", "Digital Privacy"]),
   ("Science", ["Research Methodology", "Scientific Ethics", "Peer Review"]),
   ("Healthcare", ["Medical Ethics", "Public Health Policy", "Healthcare Economics"]),
   ("Politics", ["Political Philosophy", "Governance", "Policy Analysis"]),
   ("Economics", ["Behavioral Economics", "Market Theory", "Economic Policy"]),
   ("Environment", ["Climate Science", "Sustainability", "Environmental Policy"]),
   ("Education", ["Pedagogy", "Educational Technology", "Learning Theory"])]

/-- The `keyword_topics` mapping, in declared order. -/
def keywordTopics : List (String × String) :=
  [("ai", "Machine Learning Applications"),
   ("data", "Data Science and Analytics"),
   ("climate", "Climate Change"),
   ("policy", "Public Policy"),
   ("market", "Market Economics"),
   ("social", "Social Impact"),
   ("research", "Research Methodology")]

/-- `CriticalAnalyzer.suggest_related_topics`: extend with mapped topics of
each current topic, add keyword-triggered topics not already present, then
deduplicate and keep at most 5.  Python's `list(set(related))` iterates the
set in an unspecified order; it is modelled as `List.dedup`, which the
order-insensitive claimed properties (no duplicates, capped length) cover. -/
def suggestRelatedTopics (text : String) (currentTopics : List String) :
    List String :=
  let related0 := currentTopics.foldl
    (fun acc t =>
      match topicMap.find? (fun kv => kv.1 == t) with
      | some kv => acc ++ kv.2
      | none => acc) []
  let words := pyWords (pyLower text)
  let related1 := keywordTopics.foldl
    (fun acc kt =>
      if kt.1 ∈ words ∧ kt.2 ∉ acc then acc ++ [kt.2] else acc) related0
  related1.dedup.take 5

/-! ## The critique record (`CriticalAnalyzer.analyze`) -/

/-- The dictionary returned by `CriticalAnalyzer.analyze`. -/
structure CriticReport where
  unsupported_claims : List String
  logical_gaps : List String
  critical_summary : String
  follow_up_questions : List String
  related_topics : List String
  deriving DecidableEq

/-- `CriticalAnalyzer.analyze`: the complete critical analysis, with the
summary generated from the same claim and gap lists that are returned. -/
def criticAnalyze (text : String) (topics : List String) : CriticReport :=
  let uc := identifyUnsupportedClaims text
  let lg := identifyLogicalGaps text
  { unsupported_claims := uc
    logical_gaps := lg
    critical_summary := generateCriticalSummary text uc lg
    follow_up_questions := generateFollowUpQuestions text topics
    related_topics := suggestRelatedTopics text topics }

example :
    (criticAnalyze "" []).critical_summary =
      sWellReasoned ++ " " ++ sBalance ++ " " ++ sNoCiteDetected := by decide
example : (criticAnalyze "" []).follow_up_questions = genericQuestions := by
  decide
example :
    suggestRelatedTopics "climate data and ai" ["Science"] =
      ["Research Methodology", "Scientific Ethics", "Peer Review",
       "Machine Learning Applications", "Data Science and Analytics"] := by
  decide

/-! ## Helper lemmas -/

/-- Strings with the same character list are equal. -/
theorem str_ext (a b : String) (h : a.data = b.data) : a = b := by
  exact String.ext h

/-- Strings with character lists that differ are different. -/
theorem str_ne_of_data_ne (a b : String) (h : a.data ≠ b.data) : a ≠ b := by
  intro he; exact h (congrArg String.data he)

/-- Strings of different lengths are different. -/
theorem str_ne_of_len_ne (a b : String) (h : a.length ≠ b.length) : a ≠ b := by
  intro he; exact h (congrArg String.length he)

/-- Characterisation of the tie-breaking maximum of the three difficulty
tallies: each level wins exactly when no strictly greater tally occurs and no
earlier level (in the order beginner, intermediate, advanced) ties it. -/
theorem pickMax_spec (b i a : Nat) :
    (pickMax b i a = "beginner" ↔ i ≤ b ∧ a ≤ b) ∧
    (pickMax b i a = "intermediate" ↔ (b < i ∨ b < a) ∧ a ≤ i) ∧
    (pickMax b i a = "advanced" ↔ b < a ∧ i < a) := by
  unfold pickMax
  simp only [List.foldl]
  split_ifs with h1 h2 h2 <;> simp <;> omega

/-- The tie-breaking maximum always returns one of the three levels. -/
theorem pickMax_mem (b i a : Nat) :
    pickMax b i a = "beginner" ∨ pickMax b i a = "intermediate" ∨
      pickMax b i a = "advanced" := by
  unfold pickMax
  simp only [List.foldl]
  split_ifs <;> simp

/-- A fold appending at most one element per item equals `filterMap`. -/
theorem foldl_opt_eq_filterMap {α β : Type} (f : α → Option β) :
    ∀ (l : List α) (acc : List β),
      l.foldl (fun acc x => acc ++ (f x).toList) acc
        = acc ++ l.filterMap f := by
  intro l
  induction l with
  | nil => intro acc; simp
  | cons x xs ih =>
    intro acc
    cases hfx : f x <;>
      simp [List.foldl_cons, hfx, ih, List.filterMap_cons]

/-- A fold appending a block per item equals `flatMap`. -/
theorem foldl_app_eq_flatMap {α β : Type} (g : α → List β) :
    ∀ (l : List α) (acc : List β),
      l.foldl (fun acc x => acc ++ g x) acc = acc ++ l.flatMap g := by
  intro l
  induction l with
  | nil => intro acc; simp
  | cons x xs ih => intro acc; simp [List.foldl_cons, ih]

/-- The claim-count sentence is at least 99 characters long, which already
exceeds every fixed summary sentence. -/
theorem sClaimsCount_len (n : Nat) : 99 ≤ (sClaimsCount n).length := by
  unfold sClaimsCount
  simp only [String.length_append]
  have h1 : ("There are " : String).length = 10 := rfl
  have h2 : (" potentially unsupported claims " : String).length = 32 := rfl
  have h3 :
      ("that would benefit from additional evidence or citations." :
        String).length = 57 := rfl
  omega

/-- The gap-count sentence is at least 97 characters long. -/
theorem sGapsCount_len (n : Nat) : 97 ≤ (sGapsCount n).length := by
  unfold sGapsCount
  simp only [String.length_append]
  have h1 : ("The analysis identified " : String).length = 24 := rfl
  have h2 : (" potential logical issues " : String).length = 26 := rfl
  have h3 :
      ("or areas requiring more rigorous argumentation." : String).length =
        47 := rfl
  omega

/-- The claim-count sentence differs from every fixed summary sentence
(lengths differ). -/
theorem sClaimsCount_ne (n : Nat) (t : String) (h : t.length < 99) :
    sClaimsCount n ≠ t :=
  str_ne_of_len_ne _ _ (by have := sClaimsCount_len n; omega)

/-- The gap-count sentence differs from every fixed summary sentence. -/
theorem sGapsCount_ne (n : Nat) (t : String) (h : t.length < 97) :
    sGapsCount n ≠ t :=
  str_ne_of_len_ne _ _ (by have := sGapsCount_len n; omega)

/-- A fallacy finding starts with `Possible`, so it never equals a string
whose first character is not `P`. -/
theorem mkFallacyFinding_ne (nm ctx s2 : String)
    (h : s2.data.head? ≠ some 'P') : mkFallacyFinding nm ctx ≠ s2 := by
  apply str_ne_of_data_ne
  intro hd
  apply h
  rw [← hd]
  rw [show mkFallacyFinding nm ctx
    = "Possible " ++ (nm ++ ": \x27" ++ ctx ++ "...\x27") from by
      simp [mkFallacyFinding, String.append_assoc]]
  rw [String.data_append]
  rw [show ("Possible " : String).data
    = 'P' :: "ossible ".data from rfl]
  simp

/-- Matching a single character class followed by `r` steps the position by
one when the class accepts the current character. -/
theorem reEnds_cls_seq (s : List Char) (p : Char → Bool) (r : RE) (i : Nat)
    (h : i < s.length) (hp : p (s.get ⟨i, h⟩) = true) :
    reEnds s (RE.seq (RE.cls p) r) i = reEnds s r (i + 1) := by
  simp only [List.get_eq_getElem] at hp
  simp [reEnds, h, hp]

/-- A chain of single-character classes matches exactly when each class
accepts the character at its offset, ending right after the chain. -/
theorem reEnds_seqs_cls (s : List Char) :
    ∀ (ps : List (Char → Bool)) (i : Nat),
      (∀ (k : Nat) (hk : k < ps.length) (hik : i + k < s.length),
        (ps.get ⟨k, hk⟩) (s.get ⟨i + k, hik⟩) = true) →
      i + ps.length ≤ s.length →
      reEnds s (seqsRE (ps.map RE.cls)) i = [i + ps.length] := by
  intro ps
  induction ps with
  | nil => intro i _ _; simp [seqsRE, reEnds]
  | cons p ps ih =>
    intro i hchar hlen
    have hlen2 : i + (ps.length + 1) ≤ s.length := by
      simpa [List.length_cons] using hlen
    have hi : i < s.length := by omega
    have hp : p (s.get ⟨i, hi⟩) = true := by
      have h0 := hchar 0 (by simp) (by omega)
      simpa using h0
    rw [show seqsRE ((p :: ps).map RE.cls)
      = RE.seq (RE.cls p) (seqsRE (ps.map RE.cls)) from rfl]
    rw [reEnds_cls_seq s p _ i hi hp]
    rw [ih (i + 1) ?_ ?_]
    · simp only [List.length_cons, List.cons.injEq, and_true]
      omega
    · intro k hk hik
      have hik2 : i + (k + 1) < s.length := by omega
      have hc := hchar (k + 1)
        (by simp only [List.length_cons]; omega) hik2
      simp only [List.get_cons_succ] at hc
      have hgeq : s.get ⟨i + (k + 1), hik2⟩ = s.get ⟨i + 1 + k, hik⟩ :=
        congrArg s.get (Fin.ext (by show i + (k + 1) = i + 1 + k; omega))
      rw [hgeq] at hc
      exact hc
    · omega

/-- The classes of the year-citation pattern, as a plain list. -/
def yearClasses : List (Char → Bool) :=
  [fun x => x == '(', Char.isDigit, Char.isDigit, Char.isDigit,
   Char.isDigit, fun x => x == ')']

/-- Inserting `(2020)` anywhere in a text makes the citation search
succeed. -/
theorem citeSearch_insert (pre post : String) :
    reSearch citeSearchPat (pre ++ "(2020)" ++ post).data = true := by
  have hdata : (pre ++ "(2020)" ++ post).data
      = pre.data ++ '(' :: '2' :: '0' :: '2' :: '0' :: ')' :: post.data := by
    simp [String.data_append]
  rw [hdata]
  have hlen :
      (pre.data ++ '(' :: '2' :: '0' :: '2' :: '0' :: ')' :: post.data).length
        = pre.data.length + (post.data.length + 6) := by
    simp [List.length_append, List.length_cons]
  have hyear :
      reEnds (pre.data ++ '(' :: '2' :: '0' :: '2' :: '0' :: ')' :: post.data)
        patYearCite pre.data.length = [pre.data.length + 6] := by
    have hmain := reEnds_seqs_cls
      (pre.data ++ '(' :: '2' :: '0' :: '2' :: '0' :: ')' :: post.data)
      yearClasses pre.data.length ?_ ?_
    · rw [show patYearCite = seqsRE (yearClasses.map RE.cls) from rfl]
      rw [hmain]
      rfl
    · intro k hk hik
      have hk6 : k < 6 := hk
      have hbl :
          k < ('(' :: '2' :: '0' :: '2' :: '0' :: ')' :: post.data).length := by
        simp only [List.length_cons]
        omega
      have hsk : (pre.data ++
            '(' :: '2' :: '0' :: '2' :: '0' :: ')' :: post.data).get
              ⟨pre.data.length + k, hik⟩
          = ('(' :: '2' :: '0' :: '2' :: '0' :: ')' :: post.data).get
              ⟨k, hbl⟩ := by
        rw [List.get_eq_getElem, List.get_eq_getElem]
        rw [List.getElem_append_right (Nat.le_add_right _ _)]
        simp
      rw [hsk]
      interval_cases k <;> rfl
    · have h6 : yearClasses.length = 6 := rfl
      rw [h6, hlen]
      omega
  refine (List.any_eq_true).mpr
    ⟨pre.data.length, List.mem_range.mpr (by rw [hlen]; omega), ?_⟩
  have halt : reEnds
        (pre.data ++ '(' :: '2' :: '0' :: '2' :: '0' :: ')' :: post.data)
        citeSearchPat pre.data.length
      = reEnds (pre.data ++ '(' :: '2' :: '0' :: '2' :: '0' :: ')' :: post.data)
          patYearCite pre.data.length
        ++ reEnds (pre.data ++ '(' :: '2' :: '0' :: '2' :: '0' :: ')' :: post.data)
          patBracketCite pre.data.length := rfl
  rw [halt, hyear]
  rfl

/-- Every member of a space-joined list occurs contiguously in the join. -/
theorem joinSp_infix (s : String) :
    ∀ (parts : List String), s ∈ parts →
      ∃ x y : String, joinSp parts = x ++ s ++ y := by
  intro parts
  induction parts with
  | nil => intro h; cases h
  | cons p rest ih =>
    intro h
    rcases List.mem_cons.mp h with he | hm
    · subst he
      cases rest with
      | nil => exact ⟨"", "", str_ext _ _ (by simp [joinSp, String.data_append])⟩
      | cons q t =>
        exact ⟨"", " " ++ joinSp (q :: t),
          str_ext _ _ (by simp [joinSp, String.data_append])⟩
    · cases rest with
      | nil => cases hm
      | cons q t =>
        obtain ⟨x, y, hxy⟩ := ih hm
        exact ⟨p ++ " " ++ x, y, by
          simp [joinSp, hxy, String.append_assoc]⟩
example : countSub "aaa".data "aa".data = 1 := by decide
example : containsSub "abcd".data "bcd".data = true := by decide
example : reSearch (striRE "bc") "aBCd".data = true := by decide
example : reSearch (seqsRE [striRE "a", RE.nla (striRE "bc")]) "abc".data = false := by decide
example : reFinditer (plusRE dgRE) "a12b3".data = [(1, 3), (4, 5)] := by decide

/-- The fallacy scan as a `flatMap` over the declared pattern order. -/
theorem fallacyFindings_eq (text : String) :
    fallacyFindings text = FALLACY_PATTERNS.flatMap (fun np =>
      ((reFinditer np.2 text.data).take 2).map
        (fun m => mkFallacyFinding np.1 (mkContext text m.1 m.2))) := by
  unfold fallacyFindings
  exact (foldl_app_eq_flatMap _ FALLACY_PATTERNS []).trans (List.nil_append _)

/-- A fallacy finding is never the fixed no-citations finding (it starts with
`P`, not `R`). -/
theorem noCitations_notin_fallacyFindings (text : String) :
    sNoCitations ∉ fallacyFindings text := by
  rw [fallacyFindings_eq]
  intro hmem
  simp only [List.mem_flatMap, List.mem_map] at hmem
  obtain ⟨np, _, m, _, heq⟩ := hmem
  exact mkFallacyFinding_ne np.1 _ sNoCitations (by decide) heq

/-- The fixed no-citations finding is produced exactly when the text mentions
research or study (case-insensitively) and the citation search fails. -/
theorem noCitations_mem_gapsProduced (text : String) :
    sNoCitations ∈ gapsProduced text ↔
      ((containsSub (pyLower text).data "research".data = true ∨
        containsSub (pyLower text).data "study".data = true) ∧
        reSearch citeSearchPat text.data = false) := by
  have hfal := noCitations_notin_fallacyFindings text
  simp only [gapsProduced, structuralFindings, List.mem_append]
  constructor
  · rintro (h | h | h)
    · exact absurd h hfal
    · split_ifs at h with hA hB
      · simp at h
      · refine ⟨by simpa using hA, by simpa using hB⟩
      · simp at h
    · split_ifs at h with hV
      · simp at h
        exact absurd h (by decide)
      · simp at h
  · rintro ⟨hA, hB⟩
    right; left
    have hA2 : (containsSub (pyLower text).data "research".data = true) ∨
        (containsSub (pyLower text).data "study".data = true) := hA
    rw [if_pos (by simpa using hA2), if_neg (by simp [hB])]
    simp

/-- The no-citations summary sentence appears in the parts list exactly when
the citation count is zero. -/
theorem noCite_mem_summaryParts (text : String) (uc lg : List String) :
    sNoCiteDetected ∈ summaryParts text uc lg ↔ citationCount text = 0 := by
  have h1 : sNoCiteDetected ∉
      (if uc ≠ [] ∨ lg ≠ [] then [sScrutiny] else [sWellReasoned]) := by
    split_ifs <;> simp <;> decide
  have h2 : sNoCiteDetected ∉
      (if uc ≠ [] then [sClaimsCount uc.length] else []) := by
    split_ifs <;> simp
    intro he
    exact sClaimsCount_ne uc.length sNoCiteDetected (by decide) he.symm
  have h3 : sNoCiteDetected ∉
      (if lg ≠ [] then [sGapsCount lg.length] else []) := by
    split_ifs <;> simp
    intro he
    exact sGapsCount_ne lg.length sNoCiteDetected (by decide) he.symm
  have h4 : sNoCiteDetected ∉
      (if ¬ (containsSub (pyLower text).data "however".data = true) ∧
          ¬ (containsSub (pyLower text).data "although".data = true) then
        [sBalance] else []) := by
    split_ifs <;> simp <;> decide
  simp only [summaryParts, List.mem_append, h1, h2, h3, h4, false_or]
  split_ifs with hz hl
  · simp [hz]
  · simp
    constructor
    · intro he
      exact absurd he (by decide)
    · intro hq
      exact absurd hq hz
  · simp
    intro hq
    exact absurd hq hz

/-- The limited-citations summary sentence appears in the parts list exactly
when the citation count is positive but below 3. -/
theorem limited_mem_summaryParts (text : String) (uc lg : List String) :
    sLimitedCites ∈ summaryParts text uc lg ↔
      (0 < citationCount text ∧ citationCount text < 3) := by
  have h1 : sLimitedCites ∉
      (if uc ≠ [] ∨ lg ≠ [] then [sScrutiny] else [sWellReasoned]) := by
    split_ifs <;> simp <;> decide
  have h2 : sLimitedCites ∉
      (if uc ≠ [] then [sClaimsCount uc.length] else []) := by
    split_ifs <;> simp
    intro he
    exact sClaimsCount_ne uc.length sLimitedCites (by decide) he.symm
  have h3 : sLimitedCites ∉
      (if lg ≠ [] then [sGapsCount lg.length] else []) := by
    split_ifs <;> simp
    intro he
    exact sGapsCount_ne lg.length sLimitedCites (by decide) he.symm
  have h4 : sLimitedCites ∉
      (if ¬ (containsSub (pyLower text).data "however".data = true) ∧
          ¬ (containsSub (pyLower text).data "although".data = true) then
        [sBalance] else []) := by
    split_ifs <;> simp <;> decide
  simp only [summaryParts, List.mem_append, h1, h2, h3, h4, false_or]
  split_ifs with hz hl
  · simp
    constructor
    · intro he
      exact absurd he (by decide)
    · omega
  · simp
    omega
  · simp
    omega

/-- The claim-detection fold is the per-sentence `filterMap`, capped at 5:
each `'.'`-split sentence contributes at most one claim. -/
theorem identifyUnsupportedClaims_eq (text : String) :
    identifyUnsupportedClaims text
      = ((pySplitDot text).filterMap claimOf).take 5 := by
  unfold identifyUnsupportedClaims
  exact congrArg (List.take 5)
    ((foldl_opt_eq_filterMap claimOf (pySplitDot text) []).trans
      (List.nil_append _))

/-- A truncated claim never exceeds 153 characters (150 plus `...`). -/
theorem truncClaim_len (s : String) : (truncClaim s).length ≤ 153 := by
  unfold truncClaim
  split_ifs with h
  · rw [String.length_append]
    have h1 : (String.mk (s.data.take 150)).length = 150 := by
      show (s.data.take 150).length = 150
      rw [List.length_take]
      have h2 : 150 < s.data.length := h
      omega
    have h3 : ("..." : String).length = 3 := rfl
    omega
  · omega

/-- Any recorded claim is a truncation, hence at most 153 characters. -/
theorem claimOf_len (sen c : String) (h : claimOf sen = some c) :
    c.length ≤ 153 := by
  unfold claimOf at h
  split_ifs at h
  · rw [Option.some.injEq] at h
    rw [← h]
    exact truncClaim_len _

example : claimOf "Everyone knows that this is it" =
    some "Everyone knows that this is it" := by decide

/-- Production list of the Fallacy/Gap Detector as the (amended) claim words
it: per fallacy in declared order, the first two matches formatted with the
stripped context window, then the structural findings, the whole capped
at 5. -/
def specGapsAmended (text : String) : List String :=
  ((FALLACY_PATTERNS.flatMap fun np =>
    ((reFinditer np.2 text.data).take 2).map
      (fun m => mkFallacyFinding np.1 (mkContext text m.1 m.2))) ++
   structuralFindings text).take 5

/-- Production list exactly as the claim states it (context window NOT
stripped), used only to refute the claim as written. -/
def specGapsClaim (text : String) : List String :=
  ((FALLACY_PATTERNS.flatMap fun np =>
    ((reFinditer np.2 text.data).take 2).map
      (fun m => mkFallacyFinding np.1 (mkContextRaw text m.1 m.2))) ++
   structuralFindings text).take 5

/-! ## The frozen claims -/

/-- C1: for every input text, the Difficulty Assessor adds exactly one
complexity bonus in priority order (avg word length > 6 or avg sentence
length > 25 gives +3 to advanced; else avg word length > 5 or avg sentence
length > 15 gives +2 to intermediate; else +2 to beginner), and returns the
level whose final tally is highest, ties broken in favour of the earliest
level in the order beginner, intermediate, advanced. -/
theorem claim1_difficulty_bonus_and_tiebreak (text : String) :
    (finalScores text =
      (if complexityCond1 text then
        ((baseScores text).1, (baseScores text).2.1, (baseScores text).2.2 + 3)
      else if complexityCond2 text then
        ((baseScores text).1, (baseScores text).2.1 + 2, (baseScores text).2.2)
      else
        ((baseScores text).1 + 2, (baseScores text).2.1,
          (baseScores text).2.2))) ∧
    (assessDifficulty text = "beginner" ↔
      (finalScores text).2.1 ≤ (finalScores text).1 ∧
      (finalScores text).2.2 ≤ (finalScores text).1) ∧
    (assessDifficulty text = "intermediate" ↔
      ((finalScores text).1 < (finalScores text).2.1 ∨
       (finalScores text).1 < (finalScores text).2.2) ∧
      (finalScores text).2.2 ≤ (finalScores text).2.1) ∧
    (assessDifficulty text = "advanced" ↔
      (finalScores text).1 < (finalScores text).2.2 ∧
      (finalScores text).2.1 < (finalScores text).2.2) := by
  rcases hbs : baseScores text with ⟨b, i, a⟩
  rcases hfs : finalScores text with ⟨fb, fi, fa⟩
  have hpick : assessDifficulty text = pickMax fb fi fa := by
    unfold assessDifficulty
    rw [hfs]
  refine ⟨?_, ?_, ?_, ?_⟩
  · rw [← hfs]
    unfold finalScores
    rw [hbs]
  · rw [hpick]
    exact (pickMax_spec fb fi fa).1
  · rw [hpick]
    exact (pickMax_spec fb fi fa).2.1
  · rw [hpick]
    exact (pickMax_spec fb fi fa).2.2

/-- C2 (counterexample): on the input `"Short."` the Difficulty Assessor
does not return `beginner` (the single word `Short.` has average word length
6 > 5, so the intermediate bonus branch fires). -/
theorem claim2_counterexample : assessDifficulty "Short." ≠ "beginner" := by
  decide

/-- C2 (amended): on the input `"Short."` the Difficulty Assessor returns
`intermediate`, reached via the intermediate complexity-bonus branch
(average word length 6 > 5 while the advanced condition fails). -/
theorem claim2_amended :
    assessDifficulty "Short." = "intermediate" ∧
    ¬ complexityCond1 "Short." ∧ complexityCond2 "Short." :=
  ⟨by decide, by decide, by decide⟩

/-- C3: the Claim Detector splits on `'.'`, discards trimmed units shorter
than 20 characters, records at most one (truncated) claim per sentence —
equivalently, it is the per-sentence `filterMap` capped at 5 — and on the
text `"Experts say this will definitely work. "` (whose sentence matches
both the will-definitely and the experts-say patterns) it yields exactly one
claim entry. -/
theorem claim3_one_claim_per_sentence :
    (∀ text : String,
      identifyUnsupportedClaims text
        = ((pySplitDot text).filterMap claimOf).take 5) ∧
    reSearch patWillDefinitely
      (pyStrip "Experts say this will definitely work").data = true ∧
    reSearch patExpertsSay
      (pyStrip "Experts say this will definitely work").data = true ∧
    identifyUnsupportedClaims "Experts say this will definitely work. "
      = ["Experts say this will definitely work"] :=
  ⟨identifyUnsupportedClaims_eq, by decide, by decide, by decide⟩

/-- C4 (counterexample): on the text `"either ways "` the produced finding
uses the stripped context `either ways`, not the raw clipped slice
`either ways ` the claim describes, so the detector's output differs from
the claim's formula. -/
theorem claim4_counterexample :
    identifyLogicalGaps "either ways "
        = ["Possible False Dichotomy: \x27either ways...\x27"] ∧
    specGapsClaim "either ways "
        = ["Possible False Dichotomy: \x27either ways ...\x27"] ∧
    identifyLogicalGaps "either ways " ≠ specGapsClaim "either ways " :=
  ⟨by decide, by decide, by decide⟩

/-- C4 (amended): the Fallacy/Gap Detector produces, in order, at most the
first 2 matches of each fallacy pattern in declared order — each formatted as
`Possible <Name>: '<context>...'` with the context window clipped to the text
bounds and stripped of surrounding whitespace — then the structural findings,
and returns the first 5 findings. -/
theorem claim4_amended (text : String) :
    identifyLogicalGaps text = specGapsAmended text ∧
    (identifyLogicalGaps text).length ≤ 5 := by
  constructor
  · unfold identifyLogicalGaps specGapsAmended gapsProduced
    rw [fallacyFindings_eq]
  · unfold identifyLogicalGaps
    exact List.length_take_le 5 _

/-- C5: for every text and topic list, the report's claim list has at most 5
entries of at most 153 characters each, the gap list has at most 5 entries,
and the related-topic list has at most 5 entries with no duplicates. -/
theorem claim5_report_caps (text : String) (topics : List String) :
    (criticAnalyze text topics).unsupported_claims.length ≤ 5 ∧
    ((criticAnalyze text topics).unsupported_claims.all
      (fun c => c.length ≤ 153)) = true ∧
    (criticAnalyze text topics).logical_gaps.length ≤ 5 ∧
    (criticAnalyze text topics).related_topics.length ≤ 5 ∧
    (criticAnalyze text topics).related_topics.Nodup := by
  refine ⟨?_, ?_, ?_, ?_, ?_⟩
  · show (identifyUnsupportedClaims text).length ≤ 5
    rw [identifyUnsupportedClaims_eq]
    exact List.length_take_le 5 _
  · show (identifyUnsupportedClaims text).all _ = true
    rw [List.all_eq_true]
    intro c hc
    rw [identifyUnsupportedClaims_eq] at hc
    have hc2 := List.mem_of_mem_take hc
    obtain ⟨sen, _, hsen⟩ := List.mem_filterMap.mp hc2
    exact decide_eq_true (claimOf_len sen c hsen)
  · show (identifyLogicalGaps text).length ≤ 5
    unfold identifyLogicalGaps
    exact List.length_take_le 5 _
  · show (suggestRelatedTopics text topics).length ≤ 5
    unfold suggestRelatedTopics
    exact List.length_take_le 5 _
  · show (suggestRelatedTopics text topics).Nodup
    unfold suggestRelatedTopics
    exact List.Nodup.sublist (List.take_sublist 5 _) (List.nodup_dedup _)

/-- C6: the no-citations finding is produced exactly when the text mentions
research or study (case-insensitively) and no citation pattern matches; in
particular `"Recent research offers insight"` receives the finding, and
inserting `(2020)` anywhere into any text suppresses it. -/
theorem claim6_missing_citations :
    (∀ text : String,
      sNoCitations ∈ gapsProduced text ↔
        ((containsSub (pyLower text).data "research".data = true ∨
          containsSub (pyLower text).data "study".data = true) ∧
          reSearch citeSearchPat text.data = false)) ∧
    sNoCitations ∈ identifyLogicalGaps "Recent research offers insight" ∧
    (∀ pre post : String,
      sNoCitations ∉ identifyLogicalGaps (pre ++ "(2020)" ++ post)) := by
  refine ⟨noCitations_mem_gapsProduced, by decide, ?_⟩
  intro pre post hmem
  have h1 : sNoCitations ∈ gapsProduced (pre ++ "(2020)" ++ post) :=
    List.mem_of_mem_take hmem
  have h2 := ((noCitations_mem_gapsProduced _).mp h1).2
  rw [citeSearch_insert pre post] at h2
  cases h2

/-- C7: the Narrative Synthesizer counts citation-like occurrences across the
whole text and appends the no-citations sentence exactly when the count is 0,
the limited-citations sentence exactly when it is 1 or 2, never both, and
joins all produced sentences with single spaces. -/
theorem claim7_citation_sentences (text : String) (uc lg : List String) :
    generateCriticalSummary text uc lg = joinSp (summaryParts text uc lg) ∧
    (sNoCiteDetected ∈ summaryParts text uc lg ↔ citationCount text = 0) ∧
    (sLimitedCites ∈ summaryParts text uc lg ↔
      (0 < citationCount text ∧ citationCount text < 3)) ∧
    ¬ (sNoCiteDetected ∈ summaryParts text uc lg ∧
       sLimitedCites ∈ summaryParts text uc lg) := by
  refine ⟨rfl, noCite_mem_summaryParts text uc lg,
    limited_mem_summaryParts text uc lg, ?_⟩
  rintro ⟨h1, h2⟩
  rw [noCite_mem_summaryParts] at h1
  rw [limited_mem_summaryParts] at h2
  omega

/-- C8: whenever some `'.'`-split sentence is longer than 30 characters after
trimming, the follow-up question generator returns exactly 5 questions (the
four generic questions guarantee padding, and the list is truncated to 5). -/
theorem claim8_five_questions (text : String) (topics : List String)
    (h : ∃ sen ∈ pySplitDot text, 30 < (pyStrip sen).length) :
    (generateFollowUpQuestions text topics).length = 5 := by
  unfold generateFollowUpQuestions
  obtain ⟨sen, hsen, hlen⟩ := h
  have hne : ((pySplitDot text).map pyStrip).filter
      (fun s => 30 < s.length) ≠ [] := by
    intro hnil
    have hm : pyStrip sen ∈ ((pySplitDot text).map pyStrip).filter
        (fun s => 30 < s.length) := by
      rw [List.mem_filter]
      exact ⟨List.mem_map_of_mem _ hsen, by simpa using hlen⟩
    rw [hnil] at hm
    cases hm
  rcases hs : ((pySplitDot text).map pyStrip).filter
      (fun s => 30 < s.length) with _ | ⟨m, rest⟩
  · exact absurd hs hne
  · rw [hs]
    rcases topics with _ | ⟨t0, _ | ⟨t1, r3⟩⟩ <;>
      simp [List.length_take, List.length_append, genericQuestions]

/-- C8 (witness): a concrete text with a long sentence yields exactly 5
follow-up questions. -/
theorem claim8_five_questions_witness :
    (generateFollowUpQuestions
      "This particular sentence certainly contains well over thirty characters."
      []).length = 5 :=
  claim8_five_questions _ [] (by decide)

/-- C9: every engine operation is total: the Difficulty Assessor always
returns exactly one of the three levels (with the degenerate averages defined
as 0), returning `beginner` on empty text, and the critique of empty text
with no topics is the empty-but-valid record. -/
theorem claim9_totality :
    (∀ text : String,
      assessDifficulty text = "beginner" ∨
      assessDifficulty text = "intermediate" ∨
      assessDifficulty text = "advanced") ∧
    assessDifficulty "" = "beginner" ∧
    criticAnalyze "" [] =
      { unsupported_claims := []
        logical_gaps := []
        critical_summary := joinSp [sWellReasoned, sBalance, sNoCiteDetected]
        follow_up_questions := genericQuestions
        related_topics := [] } := by
  refine ⟨?_, by decide, by decide⟩
  intro text
  unfold assessDifficulty
  rcases hfs : finalScores text with ⟨fb, fi, fa⟩
  exact pickMax_mem fb fi fa

/-- C10: the record returned by `analyze` is internally consistent: its
summary is generated from the very claim and gap lists it returns, and when
those lists are non-empty the summary contains the counting sentence built
from the length of the returned list. -/
theorem claim10_summary_counts (text : String) (topics : List String) :
    (criticAnalyze text topics).critical_summary
      = generateCriticalSummary text
          (criticAnalyze text topics).unsupported_claims
          (criticAnalyze text topics).logical_gaps ∧
    ((criticAnalyze text topics).unsupported_claims ≠ [] →
      ∃ x y : String, (criticAnalyze text topics).critical_summary
        = x ++ sClaimsCount
            (criticAnalyze text topics).unsupported_claims.length ++ y) ∧
    ((criticAnalyze text topics).logical_gaps ≠ [] →
      ∃ x y : String, (criticAnalyze text topics).critical_summary
        = x ++ sGapsCount
            (criticAnalyze text topics).logical_gaps.length ++ y) := by
  refine ⟨rfl, ?_, ?_⟩
  · intro hne
    apply joinSp_infix
    have hm : sClaimsCount (identifyUnsupportedClaims text).length ∈
        (if identifyUnsupportedClaims text ≠ [] then
          [sClaimsCount (identifyUnsupportedClaims text).length] else []) := by
      have hne2 : identifyUnsupportedClaims text ≠ [] := hne
      rw [if_pos hne2]
      exact List.mem_singleton_self _
    exact List.mem_append_left _ (List.mem_append_left _
      (List.mem_append_left _ (List.mem_append_right _ hm)))
  · intro hne
    apply joinSp_infix
    have hm : sGapsCount (identifyLogicalGaps text).length ∈
        (if identifyLogicalGaps text ≠ [] then
          [sGapsCount (identifyLogicalGaps text).length] else []) := by
      have hne2 : identifyLogicalGaps text ≠ [] := hne
      rw [if_pos hne2]
      exact List.mem_singleton_self _
    exact List.mem_append_left _ (List.mem_append_left _
      (List.mem_append_right _ hm))
